import Mathlib

/-!
Shallow embedding of the resilient multi-account posting orchestrator
(`src/services/twitter_service_new.js`, `src/services/aiService.js`,
`src/config.js`) and proofs about its behaviour.

JavaScript strings are modelled as Lean `String` (code-unit length is char
length for the inputs considered); machine numbers are `Nat`/`Int`; the
publish transport, clock timestamps and the history-file contents are
modelled as explicit oracles consumed by index, so that each run of the
code is a pure function of its inputs.
-/

namespace XTwitt

/-! ## String helpers mirroring the JavaScript primitives used by the code -/

/-- JS `String.prototype.startsWith` on character lists: does `s` start with `pat`? -/
def charsStartWith : List Char → List Char → Bool
  | _, [] => true
  | [], _ :: _ => false
  | c :: cs, p :: ps => c == p && charsStartWith cs ps

/-- JS `String.prototype.includes` on character lists: does `s` contain `pat`? -/
def charsContain : List Char → List Char → Bool
  | [], pat => pat.isEmpty
  | c :: cs, pat => charsStartWith (c :: cs) pat || charsContain cs pat

/-- JS `s.includes(pat)` on strings. -/
def strContains (s pat : String) : Bool :=
  charsContain s.data pat.data

/-- JS `s.indexOf(pat)` as a split: `some (before, fromIdx)` where `fromIdx`
starts with the first occurrence of `pat`; `none` when `pat` does not occur. -/
def findSplit : List Char → List Char → Option (List Char × List Char)
  | [], pat => if charsStartWith [] pat then some ([], []) else none
  | c :: cs, pat =>
    if charsStartWith (c :: cs) pat then some ([], c :: cs)
    else
      match findSplit cs pat with
      | some (b, r) => some (c :: b, r)
      | none => none

/-- JS `s.substring(0, n)` (take the first `n` code units). -/
def strTake (s : String) (n : Nat) : String :=
  String.mk (s.data.take n)

/-- Whitespace recognised by the model of JS `trim` (covers the inputs used here). -/
def isWhitespaceChar (c : Char) : Bool :=
  c == ' ' || c == '\t' || c == '\n' || c == '\r'

/-- JS `s.trim()`. -/
def trimChars (s : String) : String :=
  String.mk (((s.data.dropWhile isWhitespaceChar).reverse.dropWhile isWhitespaceChar).reverse)

/-- JS `s.split(sep)` for a one-character separator. `"".split(c) = [""]`. -/
def splitOnChar (sep : Char) : List Char → List (List Char)
  | [] => [[]]
  | c :: cs =>
    let r := splitOnChar sep cs
    if c == sep then [] :: r
    else
      match r with
      | [] => [[c]]
      | g :: gs => (c :: g) :: gs

/-! ## Data model -/

/-- A thrown/returned provider error: JS `Error` objects carry an optional
numeric `code` and a `message`. -/
structure TwitterError where
  code : Option Int
  message : String
deriving Repr, DecidableEq

/-- One invocation of the publish transport (`client.v2.tweet`):
`ok (some id)` is a well-formed success response, `ok none` a response
missing `data.id` (the code then throws "Invalid response"), `err e` a
rejection with a provider error. -/
inductive TransportOutcome where
  | ok (id : Option String)
  | err (e : TwitterError)
deriving Repr, DecidableEq

/-- The configuration surface consumed by the core
(`config.twitterConfig?.retryDelay`, `config.twitterConfig?.maxRetries`,
`config.simulationMode`); `none` models an absent field. -/
structure Config where
  simulationMode : Bool
  retryDelay : Option Nat
  maxRetries : Option Nat
deriving Repr, DecidableEq

/-- The result object returned by `postTweetWithClient`. -/
structure PostResult where
  success : Bool
  simulated : Bool
  error : Option TwitterError
  accountNumber : Int
deriving Repr, DecidableEq

/-- Observable side effects of one attempt chain: number of transport
invocations, number of retry transitions taken, `saveFailedTweet` calls
(text, accountNumber) in order, and `sleep` durations in ms. -/
structure AttemptTrace where
  transportCalls : Nat
  retries : Nat
  failedSaves : List (String × Int)
  waits : List Nat
deriving Repr, DecidableEq

/-- `config.twitterConfig?.retryDelay || 300`, in milliseconds
(`|| 300` means a `0` or absent value falls back to 300 seconds). -/
def retryDelayMs (cfg : Config) : Nat :=
  (match cfg.retryDelay with
   | some d => if d = 0 then 300 else d
   | none => 300) * 1000

/-- `config.twitterConfig?.maxRetries || 1`. -/
def maxRetriesOf (cfg : Config) : Nat :=
  match cfg.maxRetries with
  | some m => if m = 0 then 1 else m
  | none => 1

/-- The duplicate-content mutation (lines 388-400 of
`twitter_service_new.js`): when the text contains `"@giverep"`, insert
`"[HH:MM:SS] "` just before its first occurrence; otherwise append
`" [HH:MM:SS]"` at the end. `ts` is the 8-character `HH:MM:SS` clock slice. -/
def makeUniqueTweet (tweetText ts : String) : String :=
  if strContains tweetText "@giverep" then
    match findSplit tweetText.data ("@giverep".data) with
    | some (b, r) => String.mk b ++ "[" ++ ts ++ "] " ++ String.mk r
    | none => tweetText
  else
    tweetText ++ " [" ++ ts ++ "]"

/-- Shallow embedding of `postTweetWithClient` (lines 310-424).
`envSim` models `process.env.SIMULATION_MODE === 'true'`; `transport n` is
the outcome of the (n+1)-th transport invocation of this attempt chain;
`tsAt n` is the `HH:MM:SS` timestamp observed at that point. Returns the
result object together with the chain's observable trace. -/
def postTweetWithClient (envSim : Bool) (transport : Nat → TransportOutcome)
    (tsAt : Nat → String) (cfg : Config) (accountNumber : Int)
    (tweetText : String) (retryCount : Nat) (callCount : Nat) :
    PostResult × AttemptTrace :=
  if envSim || cfg.simulationMode then
    (⟨true, true, none, accountNumber⟩, ⟨0, 0, [], []⟩)
  else if tweetText.length = 0 then
    (⟨false, false, some ⟨none, "Tweet text is empty"⟩, accountNumber⟩,
     ⟨0, 0, [(tweetText, accountNumber)], []⟩)
  else if tweetText.length > 280 then
    (⟨false, false, some ⟨none, "Tweet text exceeds maximum length of 280 characters"⟩,
       accountNumber⟩,
     ⟨0, 0, [(tweetText, accountNumber)], []⟩)
  else
    match transport callCount, retryCount with
    | .ok (some _), _ =>
      (⟨true, false, none, accountNumber⟩, ⟨1, 0, [], []⟩)
    | .ok none, _ =>
      (⟨false, false, some ⟨none, "Invalid response from Twitter API"⟩, accountNumber⟩,
       ⟨1, 0, [(tweetText, accountNumber)], []⟩)
    | .err e, 0 =>
      (⟨false, false, some e, accountNumber⟩,
       ⟨1, 0, [(tweetText, accountNumber)], []⟩)
    | .err e, r + 1 =>
      if e.code = some 429 then
        let sub := postTweetWithClient envSim transport tsAt cfg accountNumber
          tweetText r (callCount + 1)
        (sub.1, ⟨sub.2.transportCalls + 1, sub.2.retries + 1, sub.2.failedSaves,
          retryDelayMs cfg :: sub.2.waits⟩)
      else if e.code = some 187 then
        let uniq := makeUniqueTweet tweetText (tsAt callCount)
        let sub := postTweetWithClient envSim transport tsAt cfg accountNumber
          uniq r (callCount + 1)
        (sub.1, ⟨sub.2.transportCalls + 1, sub.2.retries + 1, sub.2.failedSaves,
          2000 :: sub.2.waits⟩)
      else
        (⟨false, false, some e, accountNumber⟩,
         ⟨1, 0, [(tweetText, accountNumber)], []⟩)

/-! ## History store (`saveTweetHistory`, lines 144-209) -/

/-- Per-account outcome stored inside a history entry. -/
structure AccountOutcome where
  accountNumber : Int
  success : Bool
deriving Repr, DecidableEq

/-- One `tweetRecord` of `tweet_history.json`. -/
structure TweetRecord where
  timestamp : String
  text : String
  accounts : List AccountOutcome
deriving Repr, DecidableEq

/-- The pure state update performed by `saveTweetHistory` on the parsed
history list: `history.push(record)` followed by
`if (history.length > 100) history = history.slice(history.length - 100)`. -/
def saveTweetHistory (history : List TweetRecord) (record : TweetRecord) :
    List TweetRecord :=
  let h := history ++ [record]
  if h.length > 100 then h.drop (h.length - 100) else h

/-! ## Failure queue and retry sweep
(`saveFailedTweet` lines 216-243, `retryFailedTweets` lines 504-590) -/

/-- One entry of `failed_tweets.json`. -/
structure FailedPost where
  timestamp : String
  text : String
  accountNumber : Int
deriving Repr, DecidableEq

/-- Do two failed posts name the same (accountNumber, text) pair? -/
def sameFailedKey (a b : FailedPost) : Bool :=
  a.accountNumber == b.accountNumber && a.text == b.text

/-- The queue update performed by `retryFailedTweets` after replaying one
entry: on success, `failedTweets.filter(t => !(t.accountNumber ===
tweet.accountNumber && t.text === tweet.text))` is written back; on failure
the queue is untouched. -/
def retryStep (queue : List FailedPost) (entry : FailedPost) (succeeded : Bool) :
    List FailedPost :=
  if succeeded then queue.filter (fun t => !(sameFailedKey t entry)) else queue

/-- A whole retry sweep as a sequence of replay steps: each step names the
entry replayed and whether `postTweetWithClient` succeeded for it. -/
def runSweep (queue : List FailedPost) (steps : List (FailedPost × Bool)) :
    List FailedPost :=
  steps.foldl (fun q s => retryStep q s.1 s.2) queue

/-! ## Dispatch loop (`postTweetToAllAccounts`, lines 461-496) -/

/-- A pooled client handle: the credential fields it was built from and the
account number (the live `TwitterApi` object carries no further state the
core reads). -/
structure Client where
  appKey : String
  appSecret : String
  accessToken : String
  accessSecret : String
  accountNumber : Int
deriving Repr, DecidableEq

/-- The loop body of `postTweetToAllAccounts`, from position `i`.
`lastC` is the final element of the full client list (the JS code compares
`clientObj !== twitterClients[twitterClients.length - 1]`; object identity
is modelled as value equality). `transports i` is the transport oracle for
the attempt chain of the client at position `i`; `histAt i` is the
`tweet_history.json` content read by `getTweetHistory()` at that position.
Returns the result list and the trace of adaptive-delay computations as
(accountNumber passed to `calculateSmartDelay`, history snapshot passed)
pairs, in order. -/
def dispatchFrom (envSim : Bool) (transports : Nat → Nat → TransportOutcome)
    (tsAt : Nat → String) (cfg : Config) (histAt : Nat → List TweetRecord)
    (tweetText : String) (lastC : Client) :
    List Client → Nat → List PostResult × List (Int × List TweetRecord)
  | [], _ => ([], [])
  | c :: rest, i =>
    let r := (postTweetWithClient envSim (transports i) tsAt cfg c.accountNumber
      tweetText (maxRetriesOf cfg) 0).1
    let tail := dispatchFrom envSim transports tsAt cfg histAt tweetText lastC rest (i + 1)
    if c = lastC then (r :: tail.1, tail.2)
    else (r :: tail.1, (c.accountNumber, histAt i) :: tail.2)

/-- Shallow embedding of `postTweetToAllAccounts`: empty client list short
circuits to `[]`; otherwise the loop runs with the last element of the list
as the "last account" sentinel. -/
def postTweetToAllAccounts (envSim : Bool) (transports : Nat → Nat → TransportOutcome)
    (tsAt : Nat → String) (cfg : Config) (histAt : Nat → List TweetRecord)
    (tweetText : String) (clients : List Client) :
    List PostResult × List (Int × List TweetRecord) :=
  match clients.getLast? with
  | none => ([], [])
  | some lastC => dispatchFrom envSim transports tsAt cfg histAt tweetText lastC clients 0

/-! ## Template feedback selector (`selectSmartTemplate`, aiService.js lines 268-320) -/

/-- A content template. -/
structure Template where
  id : Int
  name : String
  content : String
deriving Repr, DecidableEq

/-- The match test of `selectSmartTemplate`:
`tweet.text && tweet.text.includes(template.content.substring(0, 20))`. -/
def tweetMatches (tmpl : Template) (t : TweetRecord) : Bool :=
  t.text != "" && strContains t.text (strTake tmpl.content 20)

/-- Per-entry success rate:
`tweet.accounts.filter(a => a.success).length / tweet.accounts.length`
(exact rational arithmetic in the model). -/
def entrySuccessRate (t : TweetRecord) : ℚ :=
  ((t.accounts.filter (fun a => a.success)).length : ℚ) / (t.accounts.length : ℚ)

/-- The score `selectSmartTemplate` computes for one template: fold over the
most recent 20 history entries accumulating (score, matches); zero matches
yield the base score 0.5, otherwise `score / matches`. -/
def templateScore (tmpl : Template) (history : List TweetRecord) : ℚ :=
  let recentTweets := history.drop (history.length - 20)
  let p := recentTweets.foldl
    (fun (acc : ℚ × Nat) t =>
      if tweetMatches tmpl t then (acc.1 + entrySuccessRate t, acc.2 + 1) else acc)
    (0, 0)
  if p.2 = 0 then 1 / 2 else p.1 / (p.2 : ℚ)

/-- Specification-shaped form of the same score: the average, over the
entries of the 20-entry window that match the template, of the per-entry
success rate; 0.5 when no entry matches. -/
def templateScoreSpec (tmpl : Template) (history : List TweetRecord) : ℚ :=
  let window := history.drop (history.length - 20)
  let ms := window.filter (tweetMatches tmpl)
  if ms.length = 0 then 1 / 2 else ((ms.map entrySuccessRate).sum) / (ms.length : ℚ)

/-! ## Account registry
(`readAccountsFromFile` in config.js lines 70-138,
`lazyLoadTwitterClient` lines 598-665) -/

/-- One parsed line of `accounts.txt`. -/
structure Credential where
  appKey : String
  appSecret : String
  accessToken : String
  accessSecret : String
  accountNumber : Int
deriving Repr, DecidableEq

/-- Is a line skipped (`line.trim() === '' || line.trim().startsWith('#')`)? -/
def isSkipLine (line : String) : Bool :=
  (trimChars line).data.isEmpty || charsStartWith (trimChars line).data ("#".data)

/-- `line.split(',').map(item => item.trim())`. -/
def lineParts (line : String) : List String :=
  (splitOnChar ',' line.data).map (fun p => trimChars (String.mk p))

/-- `fileContent.split('\n')` as strings. -/
def fileLines (content : String) : List String :=
  (splitOnChar '\n' content.data).map String.mk

/-- Are all four credential fields truthy (non-empty after trim)? -/
def partsValid (appKey appSecret accessToken accessSecret : String) : Bool :=
  appKey != "" && appSecret != "" && accessToken != "" && accessSecret != ""

/-- Shallow embedding of `readAccountsFromFile`: walks the lines, skipping
blank/comment lines, and numbers each well-formed credential line with the
running count of valid credential lines seen so far (`accountCount`). -/
def readAccountsFromFile (content : String) : List Credential :=
  ((fileLines content).foldl
    (fun (acc : List Credential × Int) line =>
      if isSkipLine line then acc
      else
        match lineParts line with
        | [appKey, appSecret, accessToken, accessSecret] =>
          if partsValid appKey appSecret accessToken accessSecret then
            (acc.1 ++ [⟨appKey, appSecret, accessToken, accessSecret, acc.2 + 1⟩], acc.2 + 1)
          else acc
        | _ => acc)
    ([], 0)).1

/-- The file-scan part of `lazyLoadTwitterClient` (lines 610-641): for each
non-skipped 4-field line it computes
`currentAccountNumber = lineCount - (total number of blank/comment lines in
the whole file)` and keeps the credentials of the last line whose computed
number equals the requested `accountNumber` (when its fields are truthy). -/
def lazyFindAccount (content : String) (accountNumber : Int) : Option Credential :=
  let lines := fileLines content
  let skippedTotal : Int := (lines.filter isSkipLine).length
  (lines.foldl
    (fun (acc : Option Credential × Int) line =>
      let lineCount := acc.2 + 1
      if isSkipLine line then (acc.1, lineCount)
      else
        match lineParts line with
        | [appKey, appSecret, accessToken, accessSecret] =>
          if lineCount - skippedTotal = accountNumber then
            if partsValid appKey appSecret accessToken accessSecret then
              (some ⟨appKey, appSecret, accessToken, accessSecret, accountNumber⟩, lineCount)
            else (acc.1, lineCount)
          else (acc.1, lineCount)
        | _ => (acc.1, lineCount))
    (none, 0)).1

/-- Shallow embedding of `lazyLoadTwitterClient`: return a memoized handle
when present; otherwise scan the file, and on success build a handle and
append it to the pool. Returns the resolved handle (or `none`) and the
updated pool. -/
def lazyLoadTwitterClient (content : String) (accountNumber : Int)
    (twitterClients : List Client) : Option Client × List Client :=
  match twitterClients.find? (fun c => c.accountNumber == accountNumber) with
  | some c => (some c, twitterClients)
  | none =>
    match lazyFindAccount content accountNumber with
    | some a =>
      let c : Client := ⟨a.appKey, a.appSecret, a.accessToken, a.accessSecret, a.accountNumber⟩
      (some c, twitterClients ++ [c])
    | none => (none, twitterClients)

/-! ## Unfolding lemmas for one step of the posting state machine -/

set_option maxHeartbeats 1000000
set_option maxRecDepth 100000

/-- Simulation mode short-circuits to a simulated success. -/
theorem post_step_sim (envSim : Bool) (transport : Nat → TransportOutcome)
    (tsAt : Nat → String) (cfg : Config) (acct : Int) (text : String) (rc cc : Nat)
    (h : (envSim || cfg.simulationMode) = true) :
    postTweetWithClient envSim transport tsAt cfg acct text rc cc
      = (⟨true, true, none, acct⟩, ⟨0, 0, [], []⟩) := by
  rw [postTweetWithClient.eq_def, if_pos h]

/-- Empty text fails validation before the transport is consulted. -/
theorem post_step_empty (envSim : Bool) (transport : Nat → TransportOutcome)
    (tsAt : Nat → String) (cfg : Config) (acct : Int) (text : String) (rc cc : Nat)
    (h : (envSim || cfg.simulationMode) = false) (hlen : text.length = 0) :
    postTweetWithClient envSim transport tsAt cfg acct text rc cc
      = (⟨false, false, some ⟨none, "Tweet text is empty"⟩, acct⟩,
         ⟨0, 0, [(text, acct)], []⟩) := by
  rw [postTweetWithClient.eq_def]
  simp [h, hlen]

/-- Oversize text fails validation before the transport is consulted. -/
theorem post_step_oversize (envSim : Bool) (transport : Nat → TransportOutcome)
    (tsAt : Nat → String) (cfg : Config) (acct : Int) (text : String) (rc cc : Nat)
    (h : (envSim || cfg.simulationMode) = false) (hlen : text.length > 280) :
    postTweetWithClient envSim transport tsAt cfg acct text rc cc
      = (⟨false, false, some ⟨none, "Tweet text exceeds maximum length of 280 characters"⟩, acct⟩,
         ⟨0, 0, [(text, acct)], []⟩) := by
  rw [postTweetWithClient.eq_def]
  have h0 : ¬ text.length = 0 := by omega
  simp [h, h0, hlen]

/-- A well-formed transport response yields success. -/
theorem post_step_ok (envSim : Bool) (transport : Nat → TransportOutcome)
    (tsAt : Nat → String) (cfg : Config) (acct : Int) (text : String) (rc cc : Nat)
    (id : String)
    (h : (envSim || cfg.simulationMode) = false) (h0 : ¬ text.length = 0)
    (h280 : ¬ text.length > 280) (htr : transport cc = .ok (some id)) :
    postTweetWithClient envSim transport tsAt cfg acct text rc cc
      = (⟨true, false, none, acct⟩, ⟨1, 0, [], []⟩) := by
  rw [postTweetWithClient.eq_def]
  simp [h, h0, h280, htr]

/-- A response missing `data.id` is a terminal failure. -/
theorem post_step_badresp (envSim : Bool) (transport : Nat → TransportOutcome)
    (tsAt : Nat → String) (cfg : Config) (acct : Int) (text : String) (rc cc : Nat)
    (h : (envSim || cfg.simulationMode) = false) (h0 : ¬ text.length = 0)
    (h280 : ¬ text.length > 280) (htr : transport cc = .ok none) :
    postTweetWithClient envSim transport tsAt cfg acct text rc cc
      = (⟨false, false, some ⟨none, "Invalid response from Twitter API"⟩, acct⟩,
         ⟨1, 0, [(text, acct)], []⟩) := by
  rw [postTweetWithClient.eq_def]
  simp [h, h0, h280, htr]

/-- With an exhausted budget, any provider error is a terminal failure. -/
theorem post_step_err_zero (envSim : Bool) (transport : Nat → TransportOutcome)
    (tsAt : Nat → String) (cfg : Config) (acct : Int) (text : String) (cc : Nat)
    (e : TwitterError)
    (h : (envSim || cfg.simulationMode) = false) (h0 : ¬ text.length = 0)
    (h280 : ¬ text.length > 280) (htr : transport cc = .err e) :
    postTweetWithClient envSim transport tsAt cfg acct text 0 cc
      = (⟨false, false, some e, acct⟩, ⟨1, 0, [(text, acct)], []⟩) := by
  rw [postTweetWithClient.eq_def]
  simp [h, h0, h280, htr]

/-- A provider error with code other than 429 and 187 is a terminal
failure for any remaining budget. -/
theorem post_step_err_other (envSim : Bool) (transport : Nat → TransportOutcome)
    (tsAt : Nat → String) (cfg : Config) (acct : Int) (text : String) (rc cc : Nat)
    (e : TwitterError)
    (h : (envSim || cfg.simulationMode) = false) (h0 : ¬ text.length = 0)
    (h280 : ¬ text.length > 280) (htr : transport cc = .err e)
    (h429 : ¬ e.code = some 429) (h187 : ¬ e.code = some 187) :
    postTweetWithClient envSim transport tsAt cfg acct text rc cc
      = (⟨false, false, some e, acct⟩, ⟨1, 0, [(text, acct)], []⟩) := by
  rw [postTweetWithClient.eq_def]
  cases rc with
  | zero => simp [h, h0, h280, htr]
  | succ r => simp [h, h0, h280, htr, h429, h187]

/-- A 429 error with budget remaining waits `retryDelayMs` and re-attempts
with the same text and a decremented budget. -/
theorem post_step_err_429 (envSim : Bool) (transport : Nat → TransportOutcome)
    (tsAt : Nat → String) (cfg : Config) (acct : Int) (text : String) (r cc : Nat)
    (e : TwitterError)
    (h : (envSim || cfg.simulationMode) = false) (h0 : ¬ text.length = 0)
    (h280 : ¬ text.length > 280) (htr : transport cc = .err e)
    (h429 : e.code = some 429) :
    postTweetWithClient envSim transport tsAt cfg acct text (r + 1) cc
      = ((postTweetWithClient envSim transport tsAt cfg acct text r (cc + 1)).1,
         ⟨(postTweetWithClient envSim transport tsAt cfg acct text r (cc + 1)).2.transportCalls + 1,
          (postTweetWithClient envSim transport tsAt cfg acct text r (cc + 1)).2.retries + 1,
          (postTweetWithClient envSim transport tsAt cfg acct text r (cc + 1)).2.failedSaves,
          retryDelayMs cfg
            :: (postTweetWithClient envSim transport tsAt cfg acct text r (cc + 1)).2.waits⟩) := by
  rw [postTweetWithClient.eq_def]
  simp [h, h0, h280, htr, h429]

/-- A 187 error with budget remaining waits 2 seconds and re-attempts with
the mutated text and a decremented budget. -/
theorem post_step_err_187 (envSim : Bool) (transport : Nat → TransportOutcome)
    (tsAt : Nat → String) (cfg : Config) (acct : Int) (text : String) (r cc : Nat)
    (e : TwitterError)
    (h : (envSim || cfg.simulationMode) = false) (h0 : ¬ text.length = 0)
    (h280 : ¬ text.length > 280) (htr : transport cc = .err e)
    (h429 : ¬ e.code = some 429) (h187 : e.code = some 187) :
    postTweetWithClient envSim transport tsAt cfg acct text (r + 1) cc
      = ((postTweetWithClient envSim transport tsAt cfg acct
            (makeUniqueTweet text (tsAt cc)) r (cc + 1)).1,
         ⟨(postTweetWithClient envSim transport tsAt cfg acct
            (makeUniqueTweet text (tsAt cc)) r (cc + 1)).2.transportCalls + 1,
          (postTweetWithClient envSim transport tsAt cfg acct
            (makeUniqueTweet text (tsAt cc)) r (cc + 1)).2.retries + 1,
          (postTweetWithClient envSim transport tsAt cfg acct
            (makeUniqueTweet text (tsAt cc)) r (cc + 1)).2.failedSaves,
          2000 :: (postTweetWithClient envSim transport tsAt cfg acct
            (makeUniqueTweet text (tsAt cc)) r (cc + 1)).2.waits⟩) := by
  rw [postTweetWithClient.eq_def]
  simp [h, h0, h280, htr, h429, h187]

/-! ## Claim theorems about the posting state machine -/

/-- C1: for every text, client handle, config and retry budget (and every
behaviour of the transport and clock oracles), `postTweetWithClient`
resolves to a result object — the embedding is a total function — and
every non-success outcome carries a recorded error
(`success = false → error.isSome`), never a thrown exception. -/
theorem postAttempt_no_raise (envSim : Bool) (transport : Nat → TransportOutcome)
    (tsAt : Nat → String) (cfg : Config) (acct : Int) :
    ∀ (rc : Nat) (text : String) (cc : Nat),
      ((postTweetWithClient envSim transport tsAt cfg acct text rc cc).1.success = true)
      ∨ ((postTweetWithClient envSim transport tsAt cfg acct text rc cc).1.success = false
          ∧ ((postTweetWithClient envSim transport tsAt cfg acct text rc cc).1.error).isSome
            = true) := by
  intro rc
  induction rc with
  | zero =>
    intro text cc
    by_cases hsim : (envSim || cfg.simulationMode) = true
    · rw [post_step_sim _ _ _ _ _ _ _ _ hsim]; left; rfl
    · have hs : (envSim || cfg.simulationMode) = false := by
        simpa using hsim
      by_cases h0 : text.length = 0
      · rw [post_step_empty _ _ _ _ _ _ _ _ hs h0]; right; exact ⟨rfl, rfl⟩
      · by_cases h280 : text.length > 280
        · rw [post_step_oversize _ _ _ _ _ _ _ _ hs h280]; right; exact ⟨rfl, rfl⟩
        · rcases htr : transport cc with id | e
          · cases id with
            | none => rw [post_step_badresp _ _ _ _ _ _ _ _ hs h0 h280 htr]; right; exact ⟨rfl, rfl⟩
            | some v => rw [post_step_ok _ _ _ _ _ _ _ _ v hs h0 h280 htr]; left; rfl
          · rw [post_step_err_zero _ _ _ _ _ _ _ _ hs h0 h280 htr]; right; exact ⟨rfl, rfl⟩
  | succ r ih =>
    intro text cc
    by_cases hsim : (envSim || cfg.simulationMode) = true
    · rw [post_step_sim _ _ _ _ _ _ _ _ hsim]; left; rfl
    · have hs : (envSim || cfg.simulationMode) = false := by
        simpa using hsim
      by_cases h0 : text.length = 0
      · rw [post_step_empty _ _ _ _ _ _ _ _ hs h0]; right; exact ⟨rfl, rfl⟩
      · by_cases h280 : text.length > 280
        · rw [post_step_oversize _ _ _ _ _ _ _ _ hs h280]; right; exact ⟨rfl, rfl⟩
        · rcases htr : transport cc with id | e
          · cases id with
            | none => rw [post_step_badresp _ _ _ _ _ _ _ _ hs h0 h280 htr]; right; exact ⟨rfl, rfl⟩
            | some v => rw [post_step_ok _ _ _ _ _ _ _ _ v hs h0 h280 htr]; left; rfl
          · by_cases h429 : e.code = some 429
            · rw [post_step_err_429 _ _ _ _ _ _ _ _ _ hs h0 h280 htr h429]
              exact ih text (cc + 1)
            · by_cases h187 : e.code = some 187
              · rw [post_step_err_187 _ _ _ _ _ _ _ _ _ hs h0 h280 htr h429 h187]
                exact ih (makeUniqueTweet text (tsAt cc)) (cc + 1)
              · rw [post_step_err_other _ _ _ _ _ _ _ _ _ hs h0 h280 htr h429 h187]
                right; exact ⟨rfl, rfl⟩

/-- C2: for every retry budget `rc`, the attempt chain takes at most `rc`
retry transitions (rate-limited and duplicate-content retries counted
together against the same budget) and at most `rc + 1` transport calls;
and with the budget exhausted (budget 0), any provider error ends the
chain in a terminal failure (success only in simulation mode). -/
theorem retry_budget (envSim : Bool) (transport : Nat → TransportOutcome)
    (tsAt : Nat → String) (cfg : Config) (acct : Int) :
    (∀ (rc : Nat) (text : String) (cc : Nat),
      (postTweetWithClient envSim transport tsAt cfg acct text rc cc).2.retries ≤ rc
      ∧ (postTweetWithClient envSim transport tsAt cfg acct text rc cc).2.transportCalls
          ≤ rc + 1)
    ∧ (∀ (text : String) (cc : Nat) (e : TwitterError),
        transport cc = .err e →
        (postTweetWithClient envSim transport tsAt cfg acct text 0 cc).1.success
          = (envSim || cfg.simulationMode)) := by
  constructor
  · intro rc
    induction rc with
    | zero =>
      intro text cc
      by_cases hsim : (envSim || cfg.simulationMode) = true
      · rw [post_step_sim _ _ _ _ _ _ _ _ hsim]; exact ⟨Nat.le_refl 0, Nat.zero_le 1⟩
      · have hs : (envSim || cfg.simulationMode) = false := by simpa using hsim
        by_cases h0 : text.length = 0
        · rw [post_step_empty _ _ _ _ _ _ _ _ hs h0]; exact ⟨Nat.le_refl 0, Nat.zero_le 1⟩
        · by_cases h280 : text.length > 280
          · rw [post_step_oversize _ _ _ _ _ _ _ _ hs h280]; exact ⟨Nat.le_refl 0, Nat.zero_le 1⟩
          · rcases htr : transport cc with id | e
            · cases id with
              | none =>
                rw [post_step_badresp _ _ _ _ _ _ _ _ hs h0 h280 htr]
                exact ⟨Nat.le_refl 0, Nat.le_refl 1⟩
              | some v =>
                rw [post_step_ok _ _ _ _ _ _ _ _ v hs h0 h280 htr]
                exact ⟨Nat.le_refl 0, Nat.le_refl 1⟩
            · rw [post_step_err_zero _ _ _ _ _ _ _ _ hs h0 h280 htr]
              exact ⟨Nat.le_refl 0, Nat.le_refl 1⟩
    | succ r ih =>
      intro text cc
      by_cases hsim : (envSim || cfg.simulationMode) = true
      · rw [post_step_sim _ _ _ _ _ _ _ _ hsim]; exact ⟨Nat.zero_le _, Nat.zero_le _⟩
      · have hs : (envSim || cfg.simulationMode) = false := by simpa using hsim
        by_cases h0 : text.length = 0
        · rw [post_step_empty _ _ _ _ _ _ _ _ hs h0]; exact ⟨Nat.zero_le _, Nat.zero_le _⟩
        · by_cases h280 : text.length > 280
          · rw [post_step_oversize _ _ _ _ _ _ _ _ hs h280]; exact ⟨Nat.zero_le _, Nat.zero_le _⟩
          · rcases htr : transport cc with id | e
            · cases id with
              | none =>
                rw [post_step_badresp _ _ _ _ _ _ _ _ hs h0 h280 htr]
                exact ⟨Nat.zero_le _, by simp⟩
              | some v =>
                rw [post_step_ok _ _ _ _ _ _ _ _ v hs h0 h280 htr]
                exact ⟨Nat.zero_le _, by simp⟩
            · by_cases h429 : e.code = some 429
              · rw [post_step_err_429 _ _ _ _ _ _ _ _ _ hs h0 h280 htr h429]
                have := ih text (cc + 1)
                exact ⟨by simp; omega, by simp; omega⟩
              · by_cases h187 : e.code = some 187
                · rw [post_step_err_187 _ _ _ _ _ _ _ _ _ hs h0 h280 htr h429 h187]
                  have := ih (makeUniqueTweet text (tsAt cc)) (cc + 1)
                  exact ⟨by simp; omega, by simp; omega⟩
                · rw [post_step_err_other _ _ _ _ _ _ _ _ _ hs h0 h280 htr h429 h187]
                  exact ⟨Nat.zero_le _, by simp⟩
  · intro text cc e htr
    by_cases hsim : (envSim || cfg.simulationMode) = true
    · rw [post_step_sim _ _ _ _ _ _ _ _ hsim, hsim]
    · have hs : (envSim || cfg.simulationMode) = false := by simpa using hsim
      rw [hs]
      by_cases h0 : text.length = 0
      · rw [post_step_empty _ _ _ _ _ _ _ _ hs h0]
      · by_cases h280 : text.length > 280
        · rw [post_step_oversize _ _ _ _ _ _ _ _ hs h280]
        · rw [post_step_err_zero _ _ _ _ _ _ _ _ hs h0 h280 htr]

/-- C2 witness: the retry-budget theorem instantiated at a concrete chain
(budget 1, transport always failing with code 429). -/
theorem retry_budget_witness :
    ((postTweetWithClient false (fun _ => .err ⟨some 429, "x"⟩) (fun _ => "00:00:00")
        ⟨false, none, none⟩ 1 "hi" 1 0).2.retries ≤ 1
      ∧ (postTweetWithClient false (fun _ => .err ⟨some 429, "x"⟩) (fun _ => "00:00:00")
        ⟨false, none, none⟩ 1 "hi" 1 0).2.transportCalls ≤ 1 + 1)
    ∧ (postTweetWithClient false (fun _ => .err ⟨some 429, "x"⟩) (fun _ => "00:00:00")
        ⟨false, none, none⟩ 1 "hi" 0 0).1.success = (false || false) :=
  ⟨(retry_budget false (fun _ => .err ⟨some 429, "x"⟩) (fun _ => "00:00:00")
      ⟨false, none, none⟩ 1).1 1 "hi" 0,
   (retry_budget false (fun _ => .err ⟨some 429, "x"⟩) (fun _ => "00:00:00")
      ⟨false, none, none⟩ 1).2 "hi" 0 ⟨some 429, "x"⟩ rfl⟩

/-- C3 counterexample: a provider error with code 88 and retry budget 1 is
NOT retried — the chain ends immediately in a terminal failure with one
transport call, zero retry transitions and no wait, contradicting the
claim that code 88 triggers the rate-limited wait-and-re-attempt path. -/
theorem code88_terminal_cex :
    postTweetWithClient false (fun _ => .err ⟨some 88, "Rate limit exceeded"⟩)
      (fun _ => "00:00:00") ⟨false, none, none⟩ 1 "hello" 1 0
      = (⟨false, false, some ⟨some 88, "Rate limit exceeded"⟩, 1⟩,
         ⟨1, 0, [("hello", 1)], []⟩) := by decide

/-- C3 (amended): only code 429 triggers the rate-limit retry path — it
waits `retryDelayMs` (300 seconds by default) and re-attempts with a
decremented budget — while every code other than 429 and 187 (88
included) goes directly to terminal failure. -/
theorem rate_limit_retry_codes (envSim : Bool) (transport : Nat → TransportOutcome)
    (tsAt : Nat → String) (cfg : Config) (acct : Int) (text : String) (r cc : Nat)
    (e : TwitterError)
    (hs : (envSim || cfg.simulationMode) = false) (h0 : ¬ text.length = 0)
    (h280 : ¬ text.length > 280) (htr : transport cc = .err e) :
    (e.code = some 429 →
      postTweetWithClient envSim transport tsAt cfg acct text (r + 1) cc
        = ((postTweetWithClient envSim transport tsAt cfg acct text r (cc + 1)).1,
           ⟨(postTweetWithClient envSim transport tsAt cfg acct text r (cc + 1)).2.transportCalls
              + 1,
            (postTweetWithClient envSim transport tsAt cfg acct text r (cc + 1)).2.retries + 1,
            (postTweetWithClient envSim transport tsAt cfg acct text r (cc + 1)).2.failedSaves,
            retryDelayMs cfg
              :: (postTweetWithClient envSim transport tsAt cfg acct text r (cc + 1)).2.waits⟩))
    ∧ (¬ e.code = some 429 → ¬ e.code = some 187 → ∀ rc,
        postTweetWithClient envSim transport tsAt cfg acct text rc cc
          = (⟨false, false, some e, acct⟩, ⟨1, 0, [(text, acct)], []⟩))
    ∧ retryDelayMs ⟨false, none, none⟩ = 300 * 1000 := by
  refine ⟨?_, ?_, by decide⟩
  · intro h429
    exact post_step_err_429 _ _ _ _ _ _ _ _ _ hs h0 h280 htr h429
  · intro h429 h187 rc
    exact post_step_err_other _ _ _ _ _ _ _ _ _ hs h0 h280 htr h429 h187

/-- C3 witness: the amended retry-code theorem instantiated at a concrete
429 error with budget 1. -/
theorem rate_limit_retry_codes_witness :
    ((⟨some 429, "x"⟩ : TwitterError).code = some 429 →
      postTweetWithClient false (fun _ => .err ⟨some 429, "x"⟩) (fun _ => "00:00:00")
        ⟨false, none, none⟩ 1 "hi" (0 + 1) 0
        = ((postTweetWithClient false (fun _ => .err ⟨some 429, "x"⟩) (fun _ => "00:00:00")
             ⟨false, none, none⟩ 1 "hi" 0 (0 + 1)).1,
           ⟨(postTweetWithClient false (fun _ => .err ⟨some 429, "x"⟩) (fun _ => "00:00:00")
             ⟨false, none, none⟩ 1 "hi" 0 (0 + 1)).2.transportCalls + 1,
            (postTweetWithClient false (fun _ => .err ⟨some 429, "x"⟩) (fun _ => "00:00:00")
             ⟨false, none, none⟩ 1 "hi" 0 (0 + 1)).2.retries + 1,
            (postTweetWithClient false (fun _ => .err ⟨some 429, "x"⟩) (fun _ => "00:00:00")
             ⟨false, none, none⟩ 1 "hi" 0 (0 + 1)).2.failedSaves,
            retryDelayMs ⟨false, none, none⟩
              :: (postTweetWithClient false (fun _ => .err ⟨some 429, "x"⟩) (fun _ => "00:00:00")
             ⟨false, none, none⟩ 1 "hi" 0 (0 + 1)).2.waits⟩))
    ∧ ((¬ (⟨some 429, "x"⟩ : TwitterError).code = some 429) →
        ¬ (⟨some 429, "x"⟩ : TwitterError).code = some 187 → ∀ rc,
        postTweetWithClient false (fun _ => .err ⟨some 429, "x"⟩) (fun _ => "00:00:00")
          ⟨false, none, none⟩ 1 "hi" rc 0
          = (⟨false, false, some ⟨some 429, "x"⟩, 1⟩, ⟨1, 0, [("hi", 1)], []⟩))
    ∧ retryDelayMs ⟨false, none, none⟩ = 300 * 1000 :=
  rate_limit_retry_codes false (fun _ => .err ⟨some 429, "x"⟩) (fun _ => "00:00:00")
    ⟨false, none, none⟩ 1 "hi" 0 0 ⟨some 429, "x"⟩ rfl (by decide) (by decide) rfl

/-- C4: with simulation off, empty or oversize (> 280) text fails
validation before any transport call: success is false with an error
recorded, zero transport invocations, zero retry transitions, and the
failure is recorded in the failure queue. -/
theorem validate_blocks_transport (envSim : Bool) (transport : Nat → TransportOutcome)
    (tsAt : Nat → String) (cfg : Config) (acct : Int) (text : String) (rc cc : Nat)
    (hs : (envSim || cfg.simulationMode) = false)
    (hlen : text.length = 0 ∨ text.length > 280) :
    (postTweetWithClient envSim transport tsAt cfg acct text rc cc).1.success = false
    ∧ ((postTweetWithClient envSim transport tsAt cfg acct text rc cc).1.error).isSome = true
    ∧ (postTweetWithClient envSim transport tsAt cfg acct text rc cc).2.transportCalls = 0
    ∧ (postTweetWithClient envSim transport tsAt cfg acct text rc cc).2.retries = 0
    ∧ (postTweetWithClient envSim transport tsAt cfg acct text rc cc).2.failedSaves
        = [(text, acct)] := by
  rcases hlen with h0 | h280
  · rw [post_step_empty _ _ _ _ _ _ _ _ hs h0]
    exact ⟨rfl, rfl, rfl, rfl, rfl⟩
  · rw [post_step_oversize _ _ _ _ _ _ _ _ hs h280]
    exact ⟨rfl, rfl, rfl, rfl, rfl⟩

/-- C4 witness: the validation theorem instantiated at empty text with a
transport that would succeed if it were (wrongly) consulted. -/
theorem validate_blocks_transport_witness :
    (postTweetWithClient false (fun _ => .ok (some "id")) (fun _ => "00:00:00")
      ⟨false, none, none⟩ 1 "" 1 0).1.success = false
    ∧ ((postTweetWithClient false (fun _ => .ok (some "id")) (fun _ => "00:00:00")
      ⟨false, none, none⟩ 1 "" 1 0).1.error).isSome = true
    ∧ (postTweetWithClient false (fun _ => .ok (some "id")) (fun _ => "00:00:00")
      ⟨false, none, none⟩ 1 "" 1 0).2.transportCalls = 0
    ∧ (postTweetWithClient false (fun _ => .ok (some "id")) (fun _ => "00:00:00")
      ⟨false, none, none⟩ 1 "" 1 0).2.retries = 0
    ∧ (postTweetWithClient false (fun _ => .ok (some "id")) (fun _ => "00:00:00")
      ⟨false, none, none⟩ 1 "" 1 0).2.failedSaves = [("", 1)] :=
  validate_blocks_transport false (fun _ => .ok (some "id")) (fun _ => "00:00:00")
    ⟨false, none, none⟩ 1 "" 1 0 rfl (Or.inl rfl)

/-- C10: on a duplicate-content error (code 187) with budget remaining and
text not containing "@giverep", the mutated retry text is exactly the
original with the 11-character suffix " [HH:MM:SS]" appended; hence for
any valid original text longer than 269 units the retry exceeds 280 units,
fails validation, and the chain ends with success = false after exactly
one transport call and one (wasted) retry transition. -/
theorem duplicate_mutation_oversize (envSim : Bool) (transport : Nat → TransportOutcome)
    (tsAt : Nat → String) (cfg : Config) (acct : Int) (text : String) (r cc : Nat)
    (e : TwitterError)
    (hs : (envSim || cfg.simulationMode) = false)
    (hgv : strContains text "@giverep" = false)
    (hts : (tsAt cc).length = 8)
    (htr : transport cc = .err e) (h187 : e.code = some 187)
    (hlen1 : 269 < text.length) (hlen2 : text.length ≤ 280) :
    makeUniqueTweet text (tsAt cc) = text ++ " [" ++ tsAt cc ++ "]"
    ∧ (makeUniqueTweet text (tsAt cc)).length = text.length + 11
    ∧ (postTweetWithClient envSim transport tsAt cfg acct text (r + 1) cc).1.success = false
    ∧ (postTweetWithClient envSim transport tsAt cfg acct text (r + 1) cc).2.transportCalls = 1
    ∧ (postTweetWithClient envSim transport tsAt cfg acct text (r + 1) cc).2.retries = 1
    ∧ (postTweetWithClient envSim transport tsAt cfg acct text (r + 1) cc).2.failedSaves
        = [(makeUniqueTweet text (tsAt cc), acct)] := by
  have hmut : makeUniqueTweet text (tsAt cc) = text ++ " [" ++ tsAt cc ++ "]" := by
    simp [makeUniqueTweet, hgv]
  have hlsp : (" [" : String).length = 2 := rfl
  have hrbr : ("]" : String).length = 1 := rfl
  have hlen : (makeUniqueTweet text (tsAt cc)).length = text.length + 11 := by
    rw [hmut]
    simp [String.length_append, hts, hlsp, hrbr]
  have h429 : ¬ e.code = some 429 := by simp [h187]
  have h0 : ¬ text.length = 0 := by omega
  have h280 : ¬ text.length > 280 := by omega
  have hbig : (makeUniqueTweet text (tsAt cc)).length > 280 := by omega
  rw [post_step_err_187 _ _ _ _ _ _ _ _ _ hs h0 h280 htr h429 h187,
    post_step_oversize _ _ _ _ _ _ _ _ hs hbig]
  exact ⟨hmut, hlen, rfl, rfl, rfl, rfl⟩

/-- C10 witness: the duplicate-mutation theorem instantiated at a
270-character text with a transport failing with code 187. -/
theorem duplicate_mutation_oversize_witness :
    makeUniqueTweet (String.mk (List.replicate 270 'a')) "12:00:00"
      = String.mk (List.replicate 270 'a') ++ " [" ++ "12:00:00" ++ "]"
    ∧ (makeUniqueTweet (String.mk (List.replicate 270 'a')) "12:00:00").length
        = (String.mk (List.replicate 270 'a')).length + 11
    ∧ (postTweetWithClient false (fun _ => .err ⟨some 187, "dup"⟩) (fun _ => "12:00:00")
        ⟨false, none, none⟩ 1 (String.mk (List.replicate 270 'a')) (0 + 1) 0).1.success = false
    ∧ (postTweetWithClient false (fun _ => .err ⟨some 187, "dup"⟩) (fun _ => "12:00:00")
        ⟨false, none, none⟩ 1 (String.mk (List.replicate 270 'a')) (0 + 1) 0).2.transportCalls
        = 1
    ∧ (postTweetWithClient false (fun _ => .err ⟨some 187, "dup"⟩) (fun _ => "12:00:00")
        ⟨false, none, none⟩ 1 (String.mk (List.replicate 270 'a')) (0 + 1) 0).2.retries = 1
    ∧ (postTweetWithClient false (fun _ => .err ⟨some 187, "dup"⟩) (fun _ => "12:00:00")
        ⟨false, none, none⟩ 1 (String.mk (List.replicate 270 'a')) (0 + 1) 0).2.failedSaves
        = [(makeUniqueTweet (String.mk (List.replicate 270 'a')) "12:00:00", 1)] :=
  duplicate_mutation_oversize false (fun _ => .err ⟨some 187, "dup"⟩) (fun _ => "12:00:00")
    ⟨false, none, none⟩ 1 (String.mk (List.replicate 270 'a')) 0 0 ⟨some 187, "dup"⟩
    rfl (by decide) (by decide) rfl rfl (by decide) (by decide)

/-! ## Claim theorems about the history store and the failure queue -/

/-- Dropping fewer elements than the length preserves the last element. -/
theorem getLast?_drop_of_lt {α : Type} (l : List α) :
    ∀ k, k < l.length → (l.drop k).getLast? = l.getLast? := by
  induction l with
  | nil => intro k h; simp at h
  | cons a t ih =>
    intro k h
    cases k with
    | zero => rfl
    | succ n =>
      simp only [List.drop_succ_cons]
      have hn : n < t.length := by simpa using h
      rw [ih n hn]
      cases t with
      | nil => simp at hn
      | cons b u => simp [List.getLast?_cons_cons]

/-- C5: after any `saveTweetHistory` write, the stored history has length
at most 100, is a suffix of the old list with the new record appended
(FIFO eviction of oldest entries, existing entries untouched), and ends
with the new record. -/
theorem saveTweetHistory_cap_fifo (history : List TweetRecord) (record : TweetRecord) :
    (saveTweetHistory history record).length ≤ 100
    ∧ (saveTweetHistory history record) <:+ (history ++ [record])
    ∧ (saveTweetHistory history record).getLast? = some record := by
  unfold saveTweetHistory
  by_cases h : (history ++ [record]).length > 100
  · rw [if_pos h]
    refine ⟨?_, ⟨(history ++ [record]).take ((history ++ [record]).length - 100),
      List.take_append_drop _ _⟩, ?_⟩
    · simp only [List.length_drop, List.length_append, List.length_cons, List.length_nil]
      simp at h
      omega
    · rw [getLast?_drop_of_lt _ _ (by simp at h ⊢; omega)]
      exact List.getLast?_concat _
  · rw [if_neg h]
    exact ⟨by omega, List.suffix_refl _, List.getLast?_concat _⟩

/-- C6: a failed post is in the queue after a retry sweep iff it was in
the queue before and no successful replay step named its exact
(accountNumber, text) pair; a failed replay leaves the queue unchanged. -/
theorem sweep_removes_iff_success (p e : FailedPost) (queue : List FailedPost)
    (steps : List (FailedPost × Bool)) :
    (p ∈ runSweep queue steps ↔
      p ∈ queue ∧ ∀ s ∈ steps, s.2 = true → sameFailedKey p s.1 = false)
    ∧ retryStep queue e false = queue := by
  constructor
  · induction steps generalizing queue with
    | nil => simp [runSweep]
    | cons s rest ih =>
      have hstep : runSweep queue (s :: rest) = runSweep (retryStep queue s.1 s.2) rest := rfl
      rw [hstep, ih]
      have hmem : p ∈ retryStep queue s.1 s.2 ↔
          p ∈ queue ∧ (s.2 = true → sameFailedKey p s.1 = false) := by
        cases hb : s.2 with
        | false => simp [retryStep, hb]
        | true =>
          simp only [retryStep, hb, if_pos]
          rw [List.mem_filter]
          simp
      rw [hmem]
      constructor
      · rintro ⟨⟨hq, hone⟩, hrest⟩
        refine ⟨hq, ?_⟩
        intro t ht
        rcases List.mem_cons.mp ht with rfl | htl
        · exact hone
        · exact hrest t htl
      · rintro ⟨hq, hall⟩
        exact ⟨⟨hq, hall s (List.mem_cons_self s rest)⟩,
          fun t ht => hall t (List.mem_cons_of_mem s ht)⟩
  · simp [retryStep]

/-- C6 witness: the sweep-removal theorem instantiated at a one-entry
queue and a single successful replay of a different entry. -/
theorem sweep_removes_iff_success_witness :
    (⟨"t", "x", 1⟩ ∈ runSweep [⟨"t", "x", 1⟩] [(⟨"u", "x", 1⟩, true)] ↔
      ⟨"t", "x", 1⟩ ∈ ([⟨"t", "x", 1⟩] : List FailedPost)
      ∧ ∀ s ∈ [((⟨"u", "x", 1⟩ : FailedPost), true)], s.2 = true →
          sameFailedKey ⟨"t", "x", 1⟩ s.1 = false)
    ∧ retryStep [⟨"t", "x", 1⟩] ⟨"u", "x", 1⟩ false = [⟨"t", "x", 1⟩] :=
  sweep_removes_iff_success ⟨"t", "x", 1⟩ ⟨"u", "x", 1⟩ [⟨"t", "x", 1⟩]
    [(⟨"u", "x", 1⟩, true)]

/-! ## Claim theorems about the dispatch loop -/

/-- The last element of a `getLast? = some` list is a member. -/
theorem getLast?_mem_self {α : Type} {l : List α} {a : α} (h : l.getLast? = some a) :
    a ∈ l := by
  have hne : l ≠ [] := by
    intro hnil
    rw [hnil] at h
    simp at h
  have := List.getLast_mem_getLast? hne
  rw [h] at this
  have heq : List.getLast l hne = a := by simpa using this.symm
  rw [← heq]
  exact List.getLast_mem hne

/-- One-step unfolding of the dispatch loop's delay trace. -/
theorem dispatchFrom_cons (envSim : Bool) (transports : Nat → Nat → TransportOutcome)
    (tsAt : Nat → String) (cfg : Config) (histAt : Nat → List TweetRecord)
    (text : String) (lastC : Client) (c : Client) (rest : List Client) (i : Nat) :
    (dispatchFrom envSim transports tsAt cfg histAt text lastC (c :: rest) i).2
      = if c = lastC
        then (dispatchFrom envSim transports tsAt cfg histAt text lastC rest (i + 1)).2
        else (c.accountNumber, histAt i)
          :: (dispatchFrom envSim transports tsAt cfg histAt text lastC rest (i + 1)).2 := by
  by_cases h : c = lastC <;> simp [dispatchFrom, h]

/-- The dispatch loop's delay trace lists, in order, the account numbers
of all non-final clients, each paired with the history snapshot read at
that point. -/
theorem dispatchFrom_delays (envSim : Bool) (transports : Nat → Nat → TransportOutcome)
    (tsAt : Nat → String) (cfg : Config) (histAt : Nat → List TweetRecord)
    (text : String) (lastC : Client) :
    ∀ (l : List Client) (i : Nat), l.getLast? = some lastC → l.Nodup →
      (dispatchFrom envSim transports tsAt cfg histAt text lastC l i).2
        = (l.dropLast.enumFrom i).map (fun p => (p.2.accountNumber, histAt p.1)) := by
  intro l
  induction l with
  | nil => intro i hlast _; simp at hlast
  | cons c rest ih =>
    intro i hlast hnodup
    cases rest with
    | nil =>
      have hc : c = lastC := by simpa using hlast
      simp [dispatchFrom, hc]
    | cons d rest2 =>
      have hlast2 : (d :: rest2).getLast? = some lastC := by
        rw [← List.getLast?_cons_cons (a := c)]
        exact hlast
      have hmem : lastC ∈ d :: rest2 := getLast?_mem_self hlast2
      have hne : ¬ c = lastC := by
        intro hceq
        exact (List.nodup_cons.mp hnodup).1 (hceq ▸ hmem)
      have htail := ih (i + 1) hlast2 (List.nodup_cons.mp hnodup).2
      rw [dispatchFrom_cons]
      simp only [if_neg hne]
      rw [htail]
      simp [List.dropLast_cons₂]

/-- C7 counterexample: with two accounts numbered 1 and 2, the single
inter-account delay is computed with account number 1 — the account just
posted to — not with the next account's number 2 as the claim states. -/
theorem dispatch_delay_next_account_cex :
    ((postTweetToAllAccounts false (fun _ _ => .ok (some "id")) (fun _ => "00:00:00")
        ⟨false, none, none⟩ (fun _ => []) "hi"
        [⟨"a", "b", "c", "d", 1⟩, ⟨"e", "f", "g", "h", 2⟩]).2.map Prod.fst = [1])
    ∧ ¬ ((postTweetToAllAccounts false (fun _ _ => .ok (some "id")) (fun _ => "00:00:00")
        ⟨false, none, none⟩ (fun _ => []) "hi"
        [⟨"a", "b", "c", "d", 1⟩, ⟨"e", "f", "g", "h", 2⟩]).2.map Prod.fst = [2]) := by
  refine ⟨by decide, by decide⟩

/-- C7 (amended): for every duplicate-free client list, after posting to
each non-final account the dispatch loop computes the adaptive delay with
the CURRENT account's number (the one just posted to) and the freshest
history snapshot, before continuing to the next account. -/
theorem dispatch_delay_uses_current (envSim : Bool) (transports : Nat → Nat → TransportOutcome)
    (tsAt : Nat → String) (cfg : Config) (histAt : Nat → List TweetRecord)
    (text : String) (clients : List Client) (hnodup : clients.Nodup) :
    (postTweetToAllAccounts envSim transports tsAt cfg histAt text clients).2
      = (clients.dropLast.enumFrom 0).map (fun p => (p.2.accountNumber, histAt p.1)) := by
  cases clients with
  | nil => simp [postTweetToAllAccounts]
  | cons c rest =>
    cases hl : (c :: rest).getLast? with
    | none => simp at hl
    | some lastC =>
      unfold postTweetToAllAccounts
      rw [hl]
      exact dispatchFrom_delays envSim transports tsAt cfg histAt text lastC
        (c :: rest) 0 hl hnodup

/-- C7 witness: the amended dispatch-delay theorem instantiated at two
concrete accounts. -/
theorem dispatch_delay_uses_current_witness :
    (postTweetToAllAccounts false (fun _ _ => .ok (some "id")) (fun _ => "00:00:00")
      ⟨false, none, none⟩ (fun _ => []) "hi"
      [⟨"a", "b", "c", "d", 1⟩, ⟨"e", "f", "g", "h", 2⟩]).2
      = ((([⟨"a", "b", "c", "d", 1⟩, ⟨"e", "f", "g", "h", 2⟩] : List Client).dropLast.enumFrom
            0).map (fun p => (p.2.accountNumber, (fun _ => ([] : List TweetRecord)) p.1))) :=
  dispatch_delay_uses_current false (fun _ _ => .ok (some "id")) (fun _ => "00:00:00")
    ⟨false, none, none⟩ (fun _ => []) "hi"
    [⟨"a", "b", "c", "d", 1⟩, ⟨"e", "f", "g", "h", 2⟩] (by decide)

/-! ## Claim theorems about the template feedback selector -/

/-- The scoring fold accumulates the sum of success rates and the count of
matching entries. -/
theorem foldl_score (tmpl : Template) (l : List TweetRecord) (s : ℚ) (n : Nat) :
    l.foldl (fun acc t =>
        if tweetMatches tmpl t then (acc.1 + entrySuccessRate t, acc.2 + 1) else acc) (s, n)
      = (s + ((l.filter (tweetMatches tmpl)).map entrySuccessRate).sum,
         n + (l.filter (tweetMatches tmpl)).length) := by
  induction l generalizing s n with
  | nil => simp
  | cons h t ih =>
    by_cases hm : tweetMatches tmpl h
    · simp only [List.foldl_cons, List.filter_cons, hm, if_pos, List.map_cons, List.sum_cons,
        List.length_cons, ih]
      refine Prod.ext ?_ ?_
      · ring
      · simp
        omega
    · simp [hm, ih]

/-- C8 counterexample: a history entry whose text merely CONTAINS the
template's first 20 characters (here with a leading extra character, so
the text does not begin with them) is counted as a match — the fully
successful entry drives the score to 1 instead of the neutral 0.5 the
claim's begins-with reading would give. -/
theorem templateScore_contains_not_begins_cex :
    templateScore ⟨1, "t", "AAAAAAAAAAAAAAAAAAAAxyz"⟩
        [⟨"ts", "ZAAAAAAAAAAAAAAAAAAAAq", [⟨1, true⟩]⟩] = 1
    ∧ charsStartWith ("ZAAAAAAAAAAAAAAAAAAAAq".data)
        ((strTake "AAAAAAAAAAAAAAAAAAAAxyz" 20).data) = false
    ∧ (1 : ℚ) ≠ 1 / 2 := by
  refine ⟨?_, by decide, by norm_num⟩
  have hm : tweetMatches ⟨1, "t", "AAAAAAAAAAAAAAAAAAAAxyz"⟩
      ⟨"ts", "ZAAAAAAAAAAAAAAAAAAAAq", [⟨1, true⟩]⟩ = true := by decide
  have hr : entrySuccessRate ⟨"ts", "ZAAAAAAAAAAAAAAAAAAAAq", [⟨1, true⟩]⟩ = 1 := by
    simp [entrySuccessRate]
  simp only [templateScore, foldl_score]
  simp [hm, hr]

/-- C8 (amended): a history entry among the most recent 20 matches a
template exactly when its text is non-empty and contains the template's
first 20 characters as a substring (anywhere, not necessarily as a leading
prefix); the template's score is the average of the per-entry success
rates over its matching entries, and 0.5 when no entry matches. -/
theorem templateScore_avg_over_matches (tmpl : Template) (history : List TweetRecord) :
    templateScore tmpl history = templateScoreSpec tmpl history := by
  simp only [templateScore, templateScoreSpec, foldl_score]
  simp

/-! ## Claim theorems about the account registry -/

/-- C9: bulk loading and lazy resolution disagree on credential numbering.
For the file "K1,S1,T1,C1\n\nK2,S2,T2,C2" (a blank line between two valid
credential lines), bulk loading assigns the first line account number 1,
but the lazy scan — which subtracts the file-wide total of blank/comment
lines from each line number — numbers the first line 0, so lazy
resolution of account 1 finds nothing (and resolving 0 would return the
first credential). -/
theorem lazy_bulk_numbering_bug :
    ((readAccountsFromFile "K1,S1,T1,C1\n\nK2,S2,T2,C2").map (fun a => a.accountNumber)
        = [1, 2])
    ∧ ((readAccountsFromFile "K1,S1,T1,C1\n\nK2,S2,T2,C2").head?.map (fun a => a.appKey)
        = some "K1")
    ∧ lazyFindAccount "K1,S1,T1,C1\n\nK2,S2,T2,C2" 1 = none
    ∧ lazyLoadTwitterClient "K1,S1,T1,C1\n\nK2,S2,T2,C2" 1 [] = (none, [])
    ∧ (lazyFindAccount "K1,S1,T1,C1\n\nK2,S2,T2,C2" 0).map (fun a => a.appKey)
        = some "K1" := by
  refine ⟨by decide, by decide, by decide, by decide, by decide⟩

end XTwitt
